import Mathlib

/-!
Verification of the Guarded Publication Pipeline of the NUJ social-media
monitor (publisher service). The definitions below are a shallow embedding
of the JavaScript sources:
  services/publisher/src/routes/index.js   (schedule, rollback, status routes)
  services/publisher/src/queue/index.js    (delivery job, getRecipients, hashEmail)
  services/publisher/src/config/index.js   (safety configuration)
  ARCHITECTURE.md                          (EmailService.sendGuidance, SafetyGuardrails)
  infrastructure/database/schema.sql       (tables and column defaults)
Times are modelled as integers (milliseconds since the epoch, as JavaScript
Date values). Database rows are modelled as Lean structures whose fields are
the table columns the code touches; a SQL query result that may fail is an
Except value.
-/

/-! ## SHA-256 (crypto.createHash, used by hashEmail in queue/index.js) -/

namespace SHA256

/-- UTF-8 encoding of one character, as byte values (Node encodes the
string argument of Hash.update as UTF-8 by default). -/
def utf8EncodeChar (c : Char) : List Nat :=
  let n := c.toNat
  if n < 0x80 then [n]
  else if n < 0x800 then [0xC0 + n / 64, 0x80 + n % 64]
  else if n < 0x10000 then
    [0xE0 + n / 4096, 0x80 + (n / 64) % 64, 0x80 + n % 64]
  else
    [0xF0 + n / 262144, 0x80 + (n / 4096) % 64, 0x80 + (n / 64) % 64, 0x80 + n % 64]

/-- UTF-8 bytes of a string. -/
def utf8Bytes (s : String) : List Nat :=
  s.data.flatMap utf8EncodeChar

/-- Right rotation of a 32-bit word (value below 2 to the 32). -/
def rotr (n x : Nat) : Nat :=
  x / 2 ^ n + x % 2 ^ n * 2 ^ (32 - n)

/-- Logical right shift. -/
def shr (n x : Nat) : Nat := x / 2 ^ n

/-- Bitwise complement within 32 bits. -/
def not32 (x : Nat) : Nat := x ^^^ 0xffffffff

/-- Addition modulo 2 to the 32. -/
def add32 (a b : Nat) : Nat := (a + b) % 2 ^ 32

def smallSigma0 (x : Nat) : Nat := rotr 7 x ^^^ rotr 18 x ^^^ shr 3 x
def smallSigma1 (x : Nat) : Nat := rotr 17 x ^^^ rotr 19 x ^^^ shr 10 x
def bigSigma0 (x : Nat) : Nat := rotr 2 x ^^^ rotr 13 x ^^^ rotr 22 x
def bigSigma1 (x : Nat) : Nat := rotr 6 x ^^^ rotr 11 x ^^^ rotr 25 x
def ch (x y z : Nat) : Nat := (x &&& y) ^^^ (not32 x &&& z)
def maj (x y z : Nat) : Nat := (x &&& y) ^^^ (x &&& z) ^^^ (y &&& z)

/-- Round constants of FIPS 180-4 section 4.2.2 (the first thirty-two
fractional bits of the cube roots of the first sixty-four primes), written
in decimal. -/
def K : List Nat :=
  [1116352408, 1899447441, 3049323471, 3921009573, 961987163,
   1508970993, 2453635748, 2870763221, 3624381080, 310598401,
   607225278, 1426881987, 1925078388, 2162078206, 2614888103,
   3248222580, 3835390401, 4022224774, 264347078, 604807628,
   770255983, 1249150122, 1555081692, 1996064986, 2554220882,
   2821834349, 2952996808, 3210313671, 3336571891, 3584528711,
   113926993, 338241895, 666307205, 773529912, 1294757372,
   1396182291, 1695183700, 1986661051, 2177026350, 2456956037,
   2730485921, 2820302411, 3259730800, 3345764771, 3516065817,
   3600352804, 4094571909, 275423344, 430227734, 506948616,
   659060556, 883997877, 958139571, 1322822218, 1537002063,
   1747873779, 1955562222, 2024104815, 2227730452, 2361852424,
   2428436474, 2756734187, 3204031479, 3329325298]

/-- Working registers of the compression function. -/
structure Regs where
  a : Nat
  b : Nat
  c : Nat
  d : Nat
  e : Nat
  f : Nat
  g : Nat
  h : Nat
  deriving DecidableEq, Repr

/-- Initial hash value of FIPS 180-4 section 5.3.3 (fractional bits of the
square roots of the first eight primes), in decimal. -/
def H0 : Regs :=
  ⟨1779033703, 3144134277, 1013904242, 2773480762,
   1359893119, 2600822924, 528734635, 1541459225⟩

/-- Message padding: a 0x80 byte, zeros, then the bit length big-endian. -/
def padBytes (m : List Nat) : List Nat :=
  let bitLen := 8 * m.length
  let zeros := (119 - m.length % 64) % 64
  m ++ [0x80] ++ List.replicate zeros 0 ++
    ((List.range 8).reverse.map fun i => bitLen / 256 ^ i % 256)

/-- Big-endian 32-bit word from four bytes. -/
def word4 (a b c d : Nat) : Nat := ((a * 256 + b) * 256 + c) * 256 + d

/-- The sixteen words of one 64-byte block. -/
def initW (block : List Nat) : Array Nat :=
  (List.range 16).foldl
    (fun w i =>
      w.push (word4 (block.getD (4 * i) 0) (block.getD (4 * i + 1) 0)
        (block.getD (4 * i + 2) 0) (block.getD (4 * i + 3) 0)))
    #[]

/-- Message schedule expansion to 64 words. -/
def schedule (w0 : Array Nat) : Array Nat :=
  (List.range 48).foldl
    (fun w i =>
      let t := i + 16
      w.push (add32 (add32 (smallSigma1 (w.getD (t - 2) 0)) (w.getD (t - 7) 0))
        (add32 (smallSigma0 (w.getD (t - 15) 0)) (w.getD (t - 16) 0))))
    w0

/-- One compression round. -/
def step (r : Regs) (kt wt : Nat) : Regs :=
  let t1 := (r.h + bigSigma1 r.e + ch r.e r.f r.g + kt + wt) % 2 ^ 32
  let t2 := (bigSigma0 r.a + maj r.a r.b r.c) % 2 ^ 32
  ⟨(t1 + t2) % 2 ^ 32, r.a, r.b, r.c, (r.d + t1) % 2 ^ 32, r.e, r.f, r.g⟩

/-- Compression of one 64-byte block into the running hash state. -/
def compressBlock (h : Regs) (block : List Nat) : Regs :=
  let w := schedule (initW block)
  let r := (List.range 64).foldl (fun r t => step r (K.getD t 0) (w.getD t 0)) h
  ⟨add32 h.a r.a, add32 h.b r.b, add32 h.c r.c, add32 h.d r.d,
   add32 h.e r.e, add32 h.f r.f, add32 h.g r.g, add32 h.h r.h⟩

/-- The padded message split into 64-byte blocks. -/
def blocks (bytes : List Nat) : List (List Nat) :=
  (List.range (bytes.length / 64)).map fun i => (bytes.drop (64 * i)).take 64

/-- Final hash state over a string. -/
def digestRegs (s : String) : Regs :=
  (blocks (padBytes (utf8Bytes s))).foldl compressBlock H0

/-- Lower-case hex digit. -/
def hexDigit (n : Nat) : Char :=
  if n < 10 then Char.ofNat (48 + n) else Char.ofNat (87 + n)

/-- Eight-hex-digit rendering of a 32-bit word. -/
def hex8 (x : Nat) : String :=
  String.mk ((List.range 8).reverse.map fun i => hexDigit (x / 16 ^ i % 16))

/-- SHA-256 hex digest of a string, as crypto.createHash produces it
with digest given the hex argument. -/
def sha256hex (s : String) : String :=
  let r := digestRegs s
  hex8 r.a ++ hex8 r.b ++ hex8 r.c ++ hex8 r.d ++
  hex8 r.e ++ hex8 r.f ++ hex8 r.g ++ hex8 r.h

end SHA256

/-! ## Data model (schema.sql) -/

/-- Guidance_publications row (schema.sql:209-229), restricted to the columns
the publisher code reads or writes. The jsonb metadata column is modelled as
the list of key-to-text projections that the code accesses with the ->> SQL
operator and with JSON.stringify. -/
structure Publication where
  id : Nat
  guidance_draft_id : Nat
  segment_id : Option Nat
  publication_channel : String
  scheduled_for : Int
  published_at : Option Int
  recipients_count : Nat
  successful_deliveries : Nat
  failed_deliveries : Nat
  grace_period_ends_at : Option Int
  can_rollback : Bool
  rolled_back_at : Option Int
  rollback_reason : Option String
  metadata : List (String × String)
  created_at : Int
  deriving DecidableEq, Repr

/-- Delivery_events row (schema.sql:237-245). -/
structure DeliveryEvent where
  publication_id : Nat
  occurred_at : Int
  event_type : String
  recipient_hash : String
  metadata : List (String × String)
  deriving DecidableEq, Repr

/-- Approval_requests row (schema.sql:261-275), the columns the approval
query filters on. -/
structure ApprovalRequest where
  related_entity_id : Nat
  request_type : String
  status : String
  deriving DecidableEq, Repr

/-- Guidance_drafts row (schema.sql:167-190), the columns the delivery job
selects through its join. -/
structure GuidanceDraft where
  id : Nat
  title : String
  summary : String
  content_markdown : String
  deriving DecidableEq, Repr

/-- Row of the members relation that getRecipients queries
(queue/index.js:139-145). -/
structure Member where
  id : String
  email : String
  segment_id : Nat
  email_verified : Bool
  subscribed : Bool
  deriving DecidableEq, Repr

/-- The relational store as seen by the publisher service. -/
structure DB where
  publications : List Publication
  delivery_events : List DeliveryEvent
  approval_requests : List ApprovalRequest
  members : List Member
  guidance_drafts : List GuidanceDraft
  deriving DecidableEq, Repr

/-- Safety section of the configuration (config/index.js:42-47). -/
structure SafetyConfig where
  approvalRequired : Bool
  gracePeriodMinutes : Nat
  testGroupEmails : List String
  enableRollback : Bool
  deriving DecidableEq, Repr

/-- JavaScript coercion applied by new Date(x) to a nullable timestamp
column: a SQL NULL arrives as the JS value null, and new Date(null) is the
epoch, i.e. time 0. A non-null timestamp is taken as is. -/
def jsDate (t : Option Int) : Int := t.getD 0

/-- Text rendering of a JSON boolean, as both JSON.stringify and the SQL
->> operator produce it. -/
def jsBoolString (b : Bool) : String := if b then "true" else "false"

/-- Value of metadata ->> key. -/
def metaLookup (m : List (String × String)) (k : String) : Option String :=
  (m.find? fun p => p.1 == k).map fun p => p.2

/-- Row lookup for SELECT ... WHERE id = $1 on guidance_publications. -/
def findPublication (db : DB) (id : Nat) : Option Publication :=
  db.publications.find? fun p => p.id == id

/-- Row lookup on guidance_drafts, the join target of the delivery job and
the status route. -/
def findDraft (db : DB) (id : Nat) : Option GuidanceDraft :=
  db.guidance_drafts.find? fun d => d.id == id

/-! ## Safety guardrails (SafetyGuardrails, ARCHITECTURE.md:668-905)

Each check method performs its own database query inside try/catch; a query
is therefore modelled as an Except value: ok rows, or error for a storage
failure. The pure row sets the queries select are defined next to each
check. -/

/-- One entry of the passed list: the code pushes layer and name. -/
structure Check where
  layer : Nat
  name : String
  deriving DecidableEq, Repr

/-- One entry of the failed list: the code pushes layer, name and message. -/
structure FailedCheck where
  layer : Nat
  name : String
  message : String
  deriving DecidableEq, Repr

/-- The accumulated check lists. -/
structure Checks where
  passed : List Check
  failed : List FailedCheck
  deriving DecidableEq, Repr

/-- Concatenation of check lists, in push order. -/
def appendChecks (a b : Checks) : Checks :=
  ⟨a.passed ++ b.passed, a.failed ++ b.failed⟩

/-- Verdict returned by checkBeforePublish. -/
structure SafetyResult where
  safe : Bool
  checks : Checks
  deriving DecidableEq, Repr

/-- Rows of the approval query of checkApproval (ARCHITECTURE.md:751-757):
approved guidance_publication approval requests for the draft. -/
def approvalQueryRows (db : DB) (pub : Publication) : List ApprovalRequest :=
  db.approval_requests.filter fun a =>
    a.related_entity_id == pub.guidance_draft_id &&
    a.request_type == "guidance_publication" &&
    a.status == "approved"

/-- Layer 1 (ARCHITECTURE.md:749-764): true when the query returned at least
one row; a query error is caught and yields false, so the check fails
closed. -/
def checkApproval (q : Except Unit (List ApprovalRequest)) : Bool :=
  match q with
  | .error _ => false
  | .ok rows => decide (rows.length > 0)

/-- Layer 2 (ARCHITECTURE.md:766-776): requires scheduled_for to be at least
the configured grace duration after the current instant. The guard on a
falsy scheduled_for in the source is dead code, since the column is NOT NULL
and a Date object is always truthy. -/
def checkGracePeriod (cfg : SafetyConfig) (pub : Publication) (now : Int) : Bool :=
  decide (pub.scheduled_for - now ≥ (cfg.gracePeriodMinutes : Int) * 60000)

/-- JS truthiness of the property access publication.test_mode inside
checkTestGroup (ARCHITECTURE.md:780): guidance_publications has no
test_mode column (schema.sql:209-229) and every call site selects table
columns only, so the property is undefined, which is falsy. -/
def testModeProp (_pub : Publication) : Bool := false

/-- Rows of the prior-test-publication query of checkTestGroup
(ARCHITECTURE.md:786-793): email publications of the same draft whose
metadata ->> is_test equals the text true and whose published_at is not
null. -/
def testGroupQueryRows (db : DB) (pub : Publication) : List Publication :=
  db.publications.filter fun q =>
    q.guidance_draft_id == pub.guidance_draft_id &&
    q.publication_channel == "email" &&
    metaLookup q.metadata "is_test" == some "true" &&
    q.published_at.isSome

/-- Layer 3 (ARCHITECTURE.md:778-800). -/
def checkTestGroup (pub : Publication) (q : Except Unit (List Publication)) : Bool :=
  if testModeProp pub then true
  else
    match q with
    | .error _ => false
    | .ok rows => decide (rows.length > 0)

/-- Layer 4 predicate (ARCHITECTURE.md:802-807): now must be strictly before
new Date(grace_period_ends_at); a null column is the epoch. -/
def checkRollbackCapability (pub : Publication) (now : Int) : Bool :=
  decide (now < jsDate pub.grace_period_ends_at)

/-- JS truthiness of publication.unsubscribe_url (ARCHITECTURE.md:822):
no table in schema.sql has an unsubscribe_url column, so the property is
undefined, which is falsy. -/
def unsubscribeUrlProp (_pub : Publication) : Bool := false

/-- Layers 5 to 10 (ARCHITECTURE.md:809-839). -/
def checkDataProtection (pub : Publication) : Checks :=
  ⟨[⟨5, "member_data_encryption"⟩, ⟨6, "access_control"⟩, ⟨7, "audit_logging"⟩] ++
     (if unsubscribeUrlProp pub then [⟨8, "gdpr_compliance"⟩] else []) ++
     [⟨9, "data_retention"⟩, ⟨10, "privacy_by_design"⟩],
   if unsubscribeUrlProp pub then []
   else [⟨8, "gdpr_compliance", "Unsubscribe URL required"⟩]⟩

/-- Count of sent delivery events in the trailing hour, across all
publications: the row count of the query of checkRateLimit
(ARCHITECTURE.md:892-896). -/
def sentEventsLastHour (events : List DeliveryEvent) (now : Int) : Nat :=
  (events.filter fun e =>
    e.event_type == "sent" && decide (now - 3600000 < e.occurred_at)).length

/-- Layer 11 (ARCHITECTURE.md:889-904): the ceiling is 1000 per hour; a
query error is caught and yields true, so the check fails open. -/
def checkRateLimit (q : Except Unit Nat) : Bool :=
  match q with
  | .error _ => true
  | .ok count => decide (count < 1000)

/-- Layers 11 to 15 (ARCHITECTURE.md:841-869). -/
def checkOperationalSafety (q : Except Unit Nat) : Checks :=
  appendChecks
    (if checkRateLimit q then ⟨[⟨11, "rate_limiting"⟩], []⟩
     else ⟨[], [⟨11, "rate_limiting", "Rate limit exceeded"⟩]⟩)
    ⟨[⟨12, "graceful_degradation"⟩, ⟨13, "backup_systems"⟩,
      ⟨14, "disaster_recovery"⟩, ⟨15, "health_monitoring"⟩], []⟩

/-- Layers 16 to 19 (ARCHITECTURE.md:871-887). -/
def checkMonitoring (_pub : Publication) : Checks :=
  ⟨[⟨16, "change_notifications"⟩, ⟨17, "service_health"⟩,
    ⟨18, "anomaly_detection"⟩, ⟨19, "delivery_tracking"⟩], []⟩

/-- The aggregate gate, checkBeforePublish (ARCHITECTURE.md:672-747). The
three query outcomes are passed in explicitly; safe holds exactly when the
failed list is empty. -/
def checkBeforePublish (cfg : SafetyConfig) (pub : Publication) (now : Int)
    (approvalQ : Except Unit (List ApprovalRequest))
    (testGroupQ : Except Unit (List Publication))
    (rateQ : Except Unit Nat) : SafetyResult :=
  let l1 : Checks :=
    if cfg.approvalRequired then
      if checkApproval approvalQ then ⟨[⟨1, "approval_required"⟩], []⟩
      else ⟨[], [⟨1, "approval_required", "Publication requires human approval"⟩]⟩
    else ⟨[], []⟩
  let l2 : Checks :=
    if checkGracePeriod cfg pub now then ⟨[⟨2, "grace_period"⟩], []⟩
    else ⟨[], [⟨2, "grace_period", "Publication must respect grace period"⟩]⟩
  let l3 : Checks :=
    if checkTestGroup pub testGroupQ then ⟨[⟨3, "test_group"⟩], []⟩
    else ⟨[], [⟨3, "test_group", "Test group delivery required first"⟩]⟩
  let l4 : Checks :=
    if !checkRollbackCapability pub now && cfg.enableRollback then
      ⟨[], [⟨4, "rollback_capability", "Rollback must be available"⟩]⟩
    else ⟨[⟨4, "rollback_capability"⟩], []⟩
  let checks :=
    appendChecks l1 (appendChecks l2 (appendChecks l3 (appendChecks l4
      (appendChecks (checkDataProtection pub)
        (appendChecks (checkOperationalSafety rateQ) (checkMonitoring pub))))))
  ⟨decide (checks.failed.length = 0), checks⟩

/-- The query outcomes of a gate evaluation against a healthy store: each of
the three lookups succeeds and returns what the database holds. -/
def healthyApprovalQ (db : DB) (pub : Publication) : Except Unit (List ApprovalRequest) :=
  .ok (approvalQueryRows db pub)

def healthyTestGroupQ (db : DB) (pub : Publication) : Except Unit (List Publication) :=
  .ok (testGroupQueryRows db pub)

def healthyRateQ (db : DB) (now : Int) : Except Unit Nat :=
  .ok (sentEventsLastHour db.delivery_events now)

/-! ## Routes (routes/index.js) -/

/-- One Bull job payload with its delay, as publishQueue.add receives it in
the schedule route (routes/index.js:60-65). -/
structure QueueJob where
  publicationId : Nat
  testMode : Bool
  delayMs : Int
  deriving DecidableEq, Repr

/-- POST publications slash schedule (routes/index.js:26-83): inserts a
publication row with the column defaults of schema.sql:209-229 and the
metadata JSON with the single key test_mode, and enqueues the delivery job
delayed until scheduled_for. -/
def scheduleRoute (db : DB) (guidance_draft_id : Nat) (segment_id : Option Nat)
    (scheduled_for : Int) (test_mode : Bool) (newId : Nat) (now : Int) :
    DB × Publication × QueueJob :=
  let pub : Publication :=
    { id := newId
      guidance_draft_id := guidance_draft_id
      segment_id := segment_id
      publication_channel := "email"
      scheduled_for := scheduled_for
      published_at := none
      recipients_count := 0
      successful_deliveries := 0
      failed_deliveries := 0
      grace_period_ends_at := none
      can_rollback := true
      rolled_back_at := none
      rollback_reason := none
      metadata := [("test_mode", jsBoolString test_mode)]
      created_at := now }
  ({ db with publications := db.publications ++ [pub] }, pub,
   { publicationId := newId, testMode := test_mode, delayMs := scheduled_for - now })

/-- Outcome of the rollback route (routes/index.js:88-148): the 404 branch,
the 400 grace-period-expired branch, or the 200 success branch. -/
inductive RollbackResult where
  | notFound
  | gracePeriodExpired
  | success
  deriving DecidableEq, Repr

/-- Row effect of the rollback UPDATE (routes/index.js:125-132): one
statement sets rolled_back_at, rollback_reason and can_rollback together. -/
def rollbackUpdate (p : Publication) (reason : String) (now : Int) : Publication :=
  { p with
      rolled_back_at := some now
      rollback_reason := some reason
      can_rollback := false }

/-- POST publications rollback (routes/index.js:88-148). The route fetches
the row, returns not found when absent, compares now against
new Date(grace_period_ends_at), and otherwise applies the UPDATE. The
rolled_back_at column is never examined. -/
def rollbackRoute (db : DB) (id : Nat) (reason : String) (now : Int) :
    RollbackResult × DB :=
  match findPublication db id with
  | none => (.notFound, db)
  | some p =>
    if now > jsDate p.grace_period_ends_at then
      (.gracePeriodExpired, db)
    else
      (.success,
       { db with
           publications := db.publications.map fun q =>
             if q.id == id then rollbackUpdate q reason now else q })

/-- Modelled from the spec: the pure rollback-eligibility predicate of the
Rollback Window Tracker, stated for comparison with the rollback route.
Spec wording: canRollback holds when rolledBackAt is null, gracePeriodEndsAt
is not null, and now is strictly before gracePeriodEndsAt. -/
def canRollbackSpec (p : Publication) (now : Int) : Bool :=
  p.rolled_back_at.isNone &&
    match p.grace_period_ends_at with
    | none => false
    | some t => decide (now < t)

/-- Per-event-type counts of the status route (routes/index.js:176-187),
one pair per distinct event_type of the publication. -/
def eventCounts (events : List DeliveryEvent) (pid : Nat) : List (String × Nat) :=
  let mine := events.filter fun e => e.publication_id == pid
  (mine.map fun e => e.event_type).dedup.map fun t =>
    (t, (mine.filter fun e => e.event_type == t).length)

/-- Response body of the status route (routes/index.js:189-203). -/
structure StatusView where
  id : Nat
  title : String
  scheduled_for : Int
  published_at : Option Int
  recipients_count : Nat
  successful_deliveries : Nat
  failed_deliveries : Nat
  can_rollback : Bool
  grace_period_ends_at : Option Int
  rolled_back_at : Option Int
  events : List (String × Nat)
  deriving DecidableEq, Repr

/-- GET publications by id (routes/index.js:153-210): SELECT statements
only, the store is returned unchanged. The join with guidance_drafts must
produce a row, so a missing draft is also a 404. -/
def statusRoute (db : DB) (id : Nat) : Option StatusView × DB :=
  match findPublication db id with
  | none => (none, db)
  | some p =>
    match findDraft db p.guidance_draft_id with
    | none => (none, db)
    | some d =>
      (some { id := p.id
              title := d.title
              scheduled_for := p.scheduled_for
              published_at := p.published_at
              recipients_count := p.recipients_count
              successful_deliveries := p.successful_deliveries
              failed_deliveries := p.failed_deliveries
              can_rollback := p.can_rollback
              grace_period_ends_at := p.grace_period_ends_at
              rolled_back_at := p.rolled_back_at
              events := eventCounts db.delivery_events p.id }, db)

/-! ## Delivery executor (EmailService.sendGuidance, queue/index.js) -/

/-- A resolved recipient, as the job builds it: a member id with an email,
or a synthetic test entry. -/
structure Recipient where
  id : String
  email : String
  deriving DecidableEq, Repr

/-- Per-recipient totals returned by sendGuidance
(ARCHITECTURE.md:500-550). -/
structure SendResults where
  sent : Nat
  failed : Nat
  errors : List (String × String)
  deriving DecidableEq, Repr

/-- EmailService.sendGuidance (ARCHITECTURE.md:490-550): one transport
attempt per recipient in order; a successful attempt increments sent, a
transport error is caught locally, increments failed and appends the email
with the error message. The transport outcome is an oracle: none is
success, some msg is a thrown error with that message. -/
def sendGuidance (recipients : List Recipient)
    (transport : Recipient → Option String) : SendResults :=
  recipients.foldl
    (fun acc r =>
      match transport r with
      | none => { acc with sent := acc.sent + 1 }
      | some msg =>
        { acc with
            failed := acc.failed + 1
            errors := acc.errors ++ [(r.email, msg)] })
    ⟨0, 0, []⟩

/-- Recipient resolution for a full send, getRecipients
(queue/index.js:133-148): an empty list when segment_id is null, else the
verified subscribed members of the segment. -/
def getRecipients (db : DB) (pub : Publication) : List Recipient :=
  match pub.segment_id with
  | none => []
  | some seg =>
    (db.members.filter fun m =>
      m.segment_id == seg && m.email_verified && m.subscribed).map
      fun m => ⟨m.id, m.email⟩

/-- Recipient resolution of the job (queue/index.js:65-67): the configured
test list with synthetic ids in test mode, getRecipients otherwise. -/
def resolveRecipients (db : DB) (cfg : SafetyConfig) (pub : Publication)
    (testMode : Bool) : List Recipient :=
  if testMode then
    cfg.testGroupEmails.enum.map fun p => ⟨"test-" ++ toString p.1, p.2⟩
  else getRecipients db pub

/-- Privacy hash of a recipient address, hashEmail (queue/index.js:150-154):
the SHA-256 hex digest of the email. The body as written also contains an
await expression inside a non-async function declaration; that defect is
modelled separately below, and this definition captures the hash the body
computes. -/
def hashEmail (email : String) : String := SHA256.sha256hex email

/-- Shape of a JavaScript function declaration, reduced to the two facts the
parser rules on here: whether the declaration is async and whether its body
contains an await expression. -/
structure JsFunctionDecl where
  isAsync : Bool
  bodyContainsAwait : Bool
  deriving DecidableEq, Repr

/-- The declaration of hashEmail (queue/index.js:150-154): a plain function
declaration whose body evaluates await import of the crypto module. -/
def hashEmailDecl : JsFunctionDecl :=
  { isAsync := false, bodyContainsAwait := true }

/-- An ECMAScript module parses only if no non-async function body contains
an await expression; an offending declaration is a SyntaxError raised when
the module is loaded, before any call runs. -/
def jsFunctionParses (f : JsFunctionDecl) : Bool :=
  !f.bodyContainsAwait || f.isAsync

/-- Row effect of the post-send UPDATE of the delivery job
(queue/index.js:81-90): published_at becomes NOW(), the counters take the
send totals, and grace_period_ends_at becomes NOW() plus the configured
grace minutes, with no condition on the totals. -/
def jobUpdate (q : Publication) (results : SendResults) (total : Nat)
    (cfg : SafetyConfig) (now : Int) : Publication :=
  { q with
      published_at := some now
      successful_deliveries := results.sent
      failed_deliveries := results.failed
      recipients_count := total
      grace_period_ends_at := some (now + (cfg.gracePeriodMinutes : Int) * 60000) }

/-- Job summary returned to Bull (queue/index.js:108-113). -/
structure JobResult where
  publicationId : Nat
  sent : Nat
  failed : Nat
  total : Nat
  deriving DecidableEq, Repr

/-- Delivery phase of the job (queue/index.js:64-113), entered after the
gate reported safe: resolve recipients, run sendGuidance, apply the UPDATE,
then insert one delivery event per resolved recipient with event_type sent
and the hashed address, whatever the transport outcomes were. -/
def deliveryPhase (db : DB) (cfg : SafetyConfig) (pub : Publication)
    (testMode : Bool) (transport : Recipient → Option String) (now : Int) :
    DB × JobResult :=
  let recipients := resolveRecipients db cfg pub testMode
  let results := sendGuidance recipients transport
  let db1 :=
    { db with
        publications := db.publications.map fun (q : Publication) =>
          if q.id == pub.id then jobUpdate q results recipients.length cfg now
          else q }
  let newEvents := recipients.map fun r =>
    ({ publication_id := pub.id
       occurred_at := now
       event_type := "sent"
       recipient_hash := hashEmail r.email
       metadata := [("test_mode", jsBoolString testMode)] } : DeliveryEvent)
  ({ db1 with delivery_events := db1.delivery_events ++ newEvents },
   { publicationId := pub.id
     sent := results.sent
     failed := results.failed
     total := recipients.length })

/-- Outcome of one processing attempt of the Bull worker
(queue/index.js:33-119): the thrown not-found error, the thrown
safety-checks-failed error carrying the failed list, or completion. -/
inductive JobOutcome where
  | notFound
  | gateFailed (failed : List FailedCheck)
  | done (r : JobResult)
  deriving DecidableEq, Repr

/-- The full job (queue/index.js:33-119): fetch the publication joined with
its draft, evaluate the gate, and run the delivery phase only on a safe
verdict. The three boolean flags inject storage errors into the three gate
queries; a thrown error leaves the store unchanged since everything before
the UPDATE only reads. -/
def processJob (db : DB) (cfg : SafetyConfig) (publicationId : Nat)
    (testMode : Bool) (approvalErr testGroupErr rateErr : Bool)
    (transport : Recipient → Option String) (now : Int) : JobOutcome × DB :=
  match findPublication db publicationId with
  | none => (.notFound, db)
  | some pub =>
    match findDraft db pub.guidance_draft_id with
    | none => (.notFound, db)
    | some _ =>
      let approvalQ := if approvalErr then .error () else healthyApprovalQ db pub
      let testGroupQ := if testGroupErr then .error () else healthyTestGroupQ db pub
      let rateQ := if rateErr then .error () else healthyRateQ db now
      let verdict := checkBeforePublish cfg pub now approvalQ testGroupQ rateQ
      if verdict.safe then
        (.done (deliveryPhase db cfg pub testMode transport now).2,
         (deliveryPhase db cfg pub testMode transport now).1)
      else (.gateFailed verdict.checks.failed, db)

/-! ## Concrete fixtures for the end-to-end scenarios -/

/-- Default safety configuration (config/index.js:42-47): approval required,
five grace minutes, one configured test address, rollback enabled. -/
def cfg5 : SafetyConfig :=
  { approvalRequired := true
    gracePeriodMinutes := 5
    testGroupEmails := ["ops@nuj.org.uk"]
    enableRollback := true }

/-- An approved guidance draft. -/
def draft7 : GuidanceDraft :=
  ⟨7, "Platform policy update", "Summary", "Body text"⟩

/-- The recorded human approval for draft 7. -/
def approval7 : ApprovalRequest := ⟨7, "guidance_publication", "approved"⟩

/-- Store before scenario A: the draft and its approval, nothing else. -/
def dbA0 : DB := ⟨[], [], [approval7], [], [draft7]⟩

/-- Scenario A scheduling call: test-mode publication created at time 0,
scheduled ten minutes out. -/
def schedA : DB × Publication × QueueJob :=
  scheduleRoute dbA0 7 none 600000 true 1 0

def dbA : DB := schedA.1

def pubA : Publication := schedA.2.1

/-- The gate verdict of scenario A, evaluated at the scheduled time with a
healthy store. -/
def verdictA : SafetyResult :=
  checkBeforePublish cfg5 pubA 600000 (healthyApprovalQ dbA pubA)
    (healthyTestGroupQ dbA pubA) (healthyRateQ dbA 600000)

/-- A publication already rolled back at time 1000, with a grace window
still formally open until time 1000000. -/
def pubRB : Publication :=
  { id := 1
    guidance_draft_id := 7
    segment_id := none
    publication_channel := "email"
    scheduled_for := 0
    published_at := some 500
    recipients_count := 1
    successful_deliveries := 1
    failed_deliveries := 0
    grace_period_ends_at := some 1000000
    can_rollback := false
    rolled_back_at := some 1000
    rollback_reason := some "first rollback"
    metadata := [("test_mode", "false")]
    created_at := 0 }

def dbRB : DB := ⟨[pubRB], [], [approval7], [], [draft7]⟩

/-- A full publication whose segment_id is null, so getRecipients resolves
to the empty list. -/
def pubNoSeg : Publication :=
  { id := 2
    guidance_draft_id := 7
    segment_id := none
    publication_channel := "email"
    scheduled_for := 600000
    published_at := none
    recipients_count := 0
    successful_deliveries := 0
    failed_deliveries := 0
    grace_period_ends_at := none
    can_rollback := true
    rolled_back_at := none
    rollback_reason := none
    metadata := [("test_mode", "false")]
    created_at := 0 }

def dbC3 : DB := ⟨[pubNoSeg], [], [approval7], [], [draft7]⟩

/-- Delivery phase of the job for the empty-audience publication, every
transport attempt set to succeed. -/
def runC3 : DB × JobResult :=
  deliveryPhase dbC3 cfg5 pubNoSeg false (fun _ => none) 600000

/-- Scenario for the test-group check: the endpoint-created test-mode
publication for draft 7, later completed. -/
def pubTest : Publication := (scheduleRoute dbA0 7 none 600000 true 1 0).2.1

def pubTestPublished : Publication := { pubTest with published_at := some 700000 }

/-- The subsequent full publication of the same draft. -/
def pubFull : Publication :=
  { id := 2
    guidance_draft_id := 7
    segment_id := some 4
    publication_channel := "email"
    scheduled_for := 2000000
    published_at := none
    recipients_count := 0
    successful_deliveries := 0
    failed_deliveries := 0
    grace_period_ends_at := none
    can_rollback := true
    rolled_back_at := none
    rollback_reason := none
    metadata := [("test_mode", "false")]
    created_at := 650000 }

def dbC4 : DB := ⟨[pubTestPublished, pubFull], [], [approval7], [], [draft7]⟩

/-- Three verified subscribed members of segment 4. -/
def memberA : Member := ⟨"u1", "a@x.org", 4, true, true⟩
def memberB : Member := ⟨"u2", "b@x.org", 4, true, true⟩
def memberC : Member := ⟨"u3", "c@x.org", 4, true, true⟩

/-- A full publication addressed to segment 4. -/
def pubSeg : Publication :=
  { id := 3
    guidance_draft_id := 7
    segment_id := some 4
    publication_channel := "email"
    scheduled_for := 0
    published_at := none
    recipients_count := 0
    successful_deliveries := 0
    failed_deliveries := 0
    grace_period_ends_at := none
    can_rollback := true
    rolled_back_at := none
    rollback_reason := none
    metadata := [("test_mode", "false")]
    created_at := 0 }

def dbC5 : DB := ⟨[pubSeg], [], [approval7], [memberA, memberB, memberC], [draft7]⟩

/-- Transport oracle of scenario C: the second recipient fails, the others
succeed. -/
def transportC5 : Recipient → Option String :=
  fun r => if r.email == "b@x.org" then some "SMTP 550" else none

/-- Scenario C delivery phase at time 1000. -/
def runC5 : DB × JobResult :=
  deliveryPhase dbC5 cfg5 pubSeg false transportC5 1000

/-- A pending full publication created through the schedule endpoint,
delivery not yet run. -/
def schedPending : DB × Publication × QueueJob :=
  scheduleRoute dbA0 7 (some 4) 600000 false 1 0

def dbPending : DB := schedPending.1

def pubPending : Publication := schedPending.2.1

/-! ## Derived notions used by the statements -/

/-- The check lists with the rate-limiting layer removed: what every other
layer reported. -/
def dropLayer11 (c : Checks) : Checks :=
  ⟨c.passed.filter fun x => x.layer != 11, c.failed.filter fun x => x.layer != 11⟩

/-- The data-model invariant: a rolled-back publication must not be
rollback-eligible. -/
def rollbackInvariant (p : Publication) : Prop :=
  p.rolled_back_at ≠ none → p.can_rollback = false

/-- Decidability of the invariant, for concrete instances. -/
instance (p : Publication) : Decidable (rollbackInvariant p) := by
  unfold rollbackInvariant
  infer_instance

/-! ## Helper lemmas -/

lemma dropLayer11_append (a b : Checks) :
    dropLayer11 (appendChecks a b) = appendChecks (dropLayer11 a) (dropLayer11 b) := by
  simp [dropLayer11, appendChecks, List.filter_append]

lemma dropLayer11_operational (q : Except Unit Nat) :
    dropLayer11 (checkOperationalSafety q) =
      ⟨[⟨12, "graceful_degradation"⟩, ⟨13, "backup_systems"⟩,
        ⟨14, "disaster_recovery"⟩, ⟨15, "health_monitoring"⟩], []⟩ := by
  cases hq : checkRateLimit q <;> simp [checkOperationalSafety, hq, dropLayer11, appendChecks]

lemma deliveryPhase_row_flags (db : DB) (cfg : SafetyConfig) (pub : Publication)
    (tm : Bool) (tr : Recipient → Option String) (now : Int) (q : Publication)
    (hq : q ∈ ((deliveryPhase db cfg pub tm tr now).1).publications) :
    ∃ p, p ∈ db.publications ∧ q.can_rollback = p.can_rollback ∧
      q.rolled_back_at = p.rolled_back_at ∧ q.id = p.id := by
  have hq' : q ∈ db.publications.map (fun (p : Publication) =>
      if p.id == pub.id then
        jobUpdate p (sendGuidance (resolveRecipients db cfg pub tm) tr)
          (resolveRecipients db cfg pub tm).length cfg now
      else p) := hq
  rcases List.mem_map.1 hq' with ⟨p, hp, hpe⟩
  refine ⟨p, hp, ?_⟩
  by_cases hc : p.id == pub.id
  · rw [if_pos hc] at hpe
    rw [← hpe]
    exact ⟨rfl, rfl, rfl⟩
  · rw [if_neg hc] at hpe
    rw [← hpe]
    exact ⟨rfl, rfl, rfl⟩

lemma processJob_row_flags (db : DB) (cfg : SafetyConfig) (pid : Nat) (tm : Bool)
    (e1 e2 e3 : Bool) (tr : Recipient → Option String) (now : Int) (q : Publication)
    (hq : q ∈ ((processJob db cfg pid tm e1 e2 e3 tr now).2).publications) :
    ∃ p, p ∈ db.publications ∧ q.can_rollback = p.can_rollback ∧
      q.rolled_back_at = p.rolled_back_at ∧ q.id = p.id := by
  unfold processJob at hq
  cases h1 : findPublication db pid with
  | none =>
    rw [h1] at hq
    exact ⟨q, hq, rfl, rfl, rfl⟩
  | some pub =>
    rw [h1] at hq
    simp only at hq
    cases h2 : findDraft db pub.guidance_draft_id with
    | none =>
      rw [h2] at hq
      simp only at hq
      exact ⟨q, hq, rfl, rfl, rfl⟩
    | some d =>
      rw [h2] at hq
      simp only at hq
      by_cases hsafe : (checkBeforePublish cfg pub now
          (if e1 then Except.error () else healthyApprovalQ db pub)
          (if e2 then Except.error () else healthyTestGroupQ db pub)
          (if e3 then Except.error () else healthyRateQ db now)).safe
      · rw [if_pos hsafe] at hq
        exact deliveryPhase_row_flags db cfg pub tm tr now q hq
      · rw [if_neg hsafe] at hq
        exact ⟨q, hq, rfl, rfl, rfl⟩

/-! ## Claims -/

/-- C1: the layer-2 grace-period feasibility check compares scheduled_for
against the evaluation instant rather than the scheduling instant, so it
reports fail, never pass, whenever the evaluator runs at or after
scheduled_for with a positive configured grace duration; in scenario A
(test-mode publication scheduled ten minutes out at creation, five-minute
grace, approval recorded) the evaluation at the scheduled time reports the
grace layer failed and the aggregate verdict is not safe, contrary to the
claim. -/
theorem gracePeriod_check_fails_on_time_delivery :
    (∀ (cfg : SafetyConfig) (pub : Publication) (now : Int),
        pub.scheduled_for ≤ now → 0 < cfg.gracePeriodMinutes →
        checkGracePeriod cfg pub now = false) ∧
    checkGracePeriod cfg5 pubA 600000 = false ∧
    verdictA.safe = false ∧
    FailedCheck.mk 2 "grace_period" "Publication must respect grace period" ∈
      verdictA.checks.failed := by
  refine ⟨?_, by decide, by decide, by decide⟩
  intro cfg pub now hle hpos
  simp only [checkGracePeriod, decide_eq_false_iff_not, not_le, ge_iff_le]
  omega

/-- C1 witness: the general part applied to scenario A at its scheduled
time. -/
theorem gracePeriod_check_fails_on_time_delivery_witness :
    checkGracePeriod cfg5 pubA 600000 = false :=
  gracePeriod_check_fails_on_time_delivery.1 cfg5 pubA 600000 (by decide) (by decide)

/-- C2 counterexample: on a publication already rolled back but still inside
its recorded grace window, the rollback route succeeds again and mutates the
record, although canRollback is false there; the claimed already-rolled-back
failure does not exist. -/
theorem rollback_succeeds_despite_prior_rollback :
    canRollbackSpec pubRB 2000 = false ∧
    pubRB.rolled_back_at ≠ none ∧
    (rollbackRoute dbRB 1 "again" 2000).1 = RollbackResult.success ∧
    (rollbackRoute dbRB 1 "again" 2000).2 ≠ dbRB := by decide

/-- C2 amended: the rollback operation succeeds exactly when the publication
exists and now is at or before new Date(grace_period_ends_at), a null window
counting as the epoch; it reports not-found exactly when the id is absent
and the expired failure exactly when now is strictly after that instant,
rolled_back_at never being consulted; on any non-success outcome the store
is unchanged. -/
theorem rollbackRoute_success_characterization :
    ∀ (db : DB) (id : Nat) (reason : String) (now : Int),
      ((rollbackRoute db id reason now).1 = RollbackResult.notFound ↔
        findPublication db id = none) ∧
      (∀ p, findPublication db id = some p →
        ((rollbackRoute db id reason now).1 = RollbackResult.success ↔
          now ≤ jsDate p.grace_period_ends_at) ∧
        ((rollbackRoute db id reason now).1 = RollbackResult.gracePeriodExpired ↔
          jsDate p.grace_period_ends_at < now)) ∧
      ((rollbackRoute db id reason now).1 ≠ RollbackResult.success →
        (rollbackRoute db id reason now).2 = db) := by
  intro db id reason now
  cases h : findPublication db id with
  | none =>
    refine ⟨by simp [rollbackRoute, h], ?_, by simp [rollbackRoute, h]⟩
    intro p hp
    simp [h] at hp
  | some p =>
    by_cases hgt : now > jsDate p.grace_period_ends_at
    · refine ⟨by simp [rollbackRoute, h, hgt], ?_, by simp [rollbackRoute, h, hgt]⟩
      intro p' hp'
      have hpe : p = p' := Option.some.inj hp'
      subst hpe
      constructor
      · simp only [rollbackRoute, h]
        rw [if_pos hgt]
        simp
        omega
      · simp only [rollbackRoute, h]
        rw [if_pos hgt]
        simp
        omega
    · refine ⟨by simp [rollbackRoute, h, hgt], ?_, ?_⟩
      · intro p' hp'
        have hpe : p = p' := Option.some.inj hp'
        subst hpe
        constructor
        · simp only [rollbackRoute, h]
          rw [if_neg hgt]
          simp
          omega
        · simp only [rollbackRoute, h]
          rw [if_neg hgt]
          simp
          omega
      · simp only [rollbackRoute, h]
        rw [if_neg hgt]
        simp

/-- C2 witness: the characterization applied to the concrete rolled-back
publication. -/
theorem rollbackRoute_success_characterization_witness :
    ((rollbackRoute dbRB 1 "again" 2000).1 = RollbackResult.success ↔
      (2000 : Int) ≤ jsDate pubRB.grace_period_ends_at) ∧
    ((rollbackRoute dbRB 1 "again" 2000).1 = RollbackResult.gracePeriodExpired ↔
      jsDate pubRB.grace_period_ends_at < 2000) :=
  (rollbackRoute_success_characterization dbRB 1 "again" 2000).2.1 pubRB (by decide)

/-- C3 counterexample: the delivery job run on a publication with a null
segment resolves zero recipients, sends to nobody, records no delivery
event, and still sets both published_at and a grace window, so a window
opens with no successful send recorded. -/
theorem grace_window_opens_with_zero_successful_sends :
    runC3.2.sent = 0 ∧ runC3.2.total = 0 ∧
    runC3.1.delivery_events = [] ∧
    (findPublication runC3.1 2).map (fun p => p.grace_period_ends_at) =
      some (some 900000) ∧
    (findPublication runC3.1 2).map (fun p => p.published_at) =
      some (some 600000) := by decide

/-- C3 amended: the post-send UPDATE of the delivery job sets published_at
and grace_period_ends_at unconditionally, whatever the send totals were, so
every row the job touches carries an open grace window afterwards, including
after zero successful sends. -/
theorem delivery_job_always_opens_grace_window :
    (∀ (q : Publication) (results : SendResults) (total : Nat)
        (cfg : SafetyConfig) (now : Int),
        (jobUpdate q results total cfg now).published_at = some now ∧
        (jobUpdate q results total cfg now).grace_period_ends_at =
          some (now + (cfg.gracePeriodMinutes : Int) * 60000)) ∧
    (∀ (db : DB) (cfg : SafetyConfig) (pub : Publication) (tm : Bool)
        (tr : Recipient → Option String) (now : Int) (q : Publication),
        q ∈ ((deliveryPhase db cfg pub tm tr now).1).publications → q.id = pub.id →
        q.published_at = some now ∧
        q.grace_period_ends_at = some (now + (cfg.gracePeriodMinutes : Int) * 60000)) := by
  constructor
  · intro q results total cfg now
    exact ⟨rfl, rfl⟩
  · intro db cfg pub tm tr now q hq hid
    have hq' : q ∈ db.publications.map (fun (p : Publication) =>
        if p.id == pub.id then
          jobUpdate p (sendGuidance (resolveRecipients db cfg pub tm) tr)
            (resolveRecipients db cfg pub tm).length cfg now
        else p) := hq
    rcases List.mem_map.1 hq' with ⟨p, hp, hpe⟩
    by_cases hc : p.id == pub.id
    · rw [if_pos hc] at hpe
      rw [← hpe]
      exact ⟨rfl, rfl⟩
    · rw [if_neg hc] at hpe
      rw [← hpe] at hid
      exact absurd (beq_iff_eq.mpr hid) hc

/-- C3 witness: the second part applied to the zero-recipient run. -/
theorem delivery_job_always_opens_grace_window_witness :
    (jobUpdate pubNoSeg ⟨0, 0, []⟩ 0 cfg5 600000).published_at = some 600000 ∧
    (jobUpdate pubNoSeg ⟨0, 0, []⟩ 0 cfg5 600000).grace_period_ends_at =
      some (600000 + (cfg5.gracePeriodMinutes : Int) * 60000) :=
  delivery_job_always_opens_grace_window.2 dbC3 cfg5 pubNoSeg false (fun _ => none)
    600000 (jobUpdate pubNoSeg ⟨0, 0, []⟩ 0 cfg5 600000) (by decide) (by decide)

/-- C4: the layer-3 test-group precondition can never see an
endpoint-created test run: the schedule route stores the metadata key
test_mode while the check queries the key is_test (and the row property
test_mode does not exist as a column), so in a store whose publications all
carry endpoint-written metadata the check reports fail; in particular the
full publication of draft 7, scheduled after the completed test-mode run of
the same draft, fails the check although the claim says it passes. -/
theorem testGroup_check_never_matches_endpoint_metadata :
    (∀ (db : DB) (pub : Publication),
        (∀ q ∈ db.publications, metaLookup q.metadata "is_test" ≠ some "true") →
        checkTestGroup pub (healthyTestGroupQ db pub) = false) ∧
    metaLookup pubTest.metadata "test_mode" = some "true" ∧
    metaLookup pubTest.metadata "is_test" = none ∧
    pubTestPublished.published_at.isSome = true ∧
    testModeProp pubTestPublished = false ∧
    checkTestGroup pubFull (healthyTestGroupQ dbC4 pubFull) = false := by
  refine ⟨?_, by decide, by decide, by decide, by decide, by decide⟩
  intro db pub h
  have hrows : testGroupQueryRows db pub = [] := by
    rw [testGroupQueryRows, List.filter_eq_nil_iff]
    intro q hq hpred
    simp only [Bool.and_eq_true, beq_iff_eq] at hpred
    exact h q hq hpred.1.2
  simp [checkTestGroup, testModeProp, healthyTestGroupQ, hrows]

/-- C4 witness: the general part applied to the draft-7 store. -/
theorem testGroup_check_never_matches_endpoint_metadata_witness :
    checkTestGroup pubFull (healthyTestGroupQ dbC4 pubFull) = false :=
  testGroup_check_never_matches_endpoint_metadata.1 dbC4 pubFull (by decide)

/-- C5 counterexample: in scenario C (three recipients, the second transport
attempt fails) the totals and the single per-recipient error are as claimed
and the batch is not aborted, but the three recorded DeliveryEvents all have
event_type sent; no failed event exists. -/
theorem scenarioC_records_three_sent_events :
    runC5.2.sent = 2 ∧ runC5.2.failed = 1 ∧ runC5.2.total = 3 ∧
    (sendGuidance (resolveRecipients dbC5 cfg5 pubSeg false) transportC5).errors =
      [("b@x.org", "SMTP 550")] ∧
    runC5.1.delivery_events.length = 3 ∧
    runC5.1.delivery_events.map (fun e => e.event_type) = ["sent", "sent", "sent"] ∧
    (runC5.1.delivery_events.filter fun e => e.event_type == "failed") = [] := by decide

/-- C5 amended: the event-recording loop of the delivery job writes one
event per resolved recipient with event_type sent regardless of the
transport outcome, so every event the job appends is a sent event and their
number equals the resolved recipient count; in scenario C the totals are
sent two and failed one and the grace window still opens. -/
theorem delivery_records_only_sent_events :
    (∀ (db : DB) (cfg : SafetyConfig) (pub : Publication) (tm : Bool)
        (tr : Recipient → Option String) (now : Int),
        ((((deliveryPhase db cfg pub tm tr now).1).delivery_events.drop
            db.delivery_events.length).all fun e => e.event_type == "sent") = true ∧
        ((deliveryPhase db cfg pub tm tr now).1).delivery_events.length =
          db.delivery_events.length + (resolveRecipients db cfg pub tm).length) ∧
    runC5.2.sent = 2 ∧ runC5.2.failed = 1 ∧
    (findPublication runC5.1 3).map (fun p => p.grace_period_ends_at) =
      some (some 301000) := by
  refine ⟨?_, by decide, by decide, by decide⟩
  intro db cfg pub tm tr now
  constructor
  · have hdrop : ((deliveryPhase db cfg pub tm tr now).1).delivery_events.drop
        db.delivery_events.length =
        (resolveRecipients db cfg pub tm).map (fun r =>
          ({ publication_id := pub.id
             occurred_at := now
             event_type := "sent"
             recipient_hash := hashEmail r.email
             metadata := [("test_mode", jsBoolString tm)] } : DeliveryEvent)) :=
      List.drop_left _ _
    rw [hdrop]
    simp [List.all_eq_true]
  · have hlen : ((deliveryPhase db cfg pub tm tr now).1).delivery_events.length =
        (db.delivery_events ++ (resolveRecipients db cfg pub tm).map (fun r =>
          ({ publication_id := pub.id
             occurred_at := now
             event_type := "sent"
             recipient_hash := hashEmail r.email
             metadata := [("test_mode", jsBoolString tm)] } : DeliveryEvent))).length := rfl
    rw [hlen]
    simp

/-- C6 counterexample: a rollback request on a pending publication issued
well before its scheduled time is answered with the grace-period-expired
failure and changes nothing, instead of cancelling the pending send. -/
theorem pending_rollback_rejected_as_expired :
    pubPending.grace_period_ends_at = none ∧
    pubPending.rolled_back_at = none ∧
    (1000 : Int) < pubPending.scheduled_for ∧
    rollbackRoute dbPending 1 "cancel" 1000 = (RollbackResult.gracePeriodExpired, dbPending) := by
  decide

/-- C6 amended: for every publication whose grace_period_ends_at is still
null (every not-yet-delivered publication), a rollback request at any
positive time fails with the expired error and leaves the store unchanged,
because new Date of the null column is the epoch; no cancellation of the
queued delivery job exists anywhere on this path. -/
theorem rollbackRoute_pending_always_expired :
    ∀ (db : DB) (id : Nat) (reason : String) (now : Int) (p : Publication),
      findPublication db id = some p → p.grace_period_ends_at = none → 0 < now →
      rollbackRoute db id reason now = (RollbackResult.gracePeriodExpired, db) := by
  intro db id reason now p h hg hpos
  have hjs : jsDate p.grace_period_ends_at = 0 := by rw [hg]; rfl
  simp [rollbackRoute, h, hjs, hpos]

/-- C6 witness: the amended statement applied to the pending scenario. -/
theorem rollbackRoute_pending_always_expired_witness :
    rollbackRoute dbPending 1 "cancel" 1000 = (RollbackResult.gracePeriodExpired, dbPending) :=
  rollbackRoute_pending_always_expired dbPending 1 "cancel" 1000 pubPending
    (by decide) (by decide) (by decide)

set_option maxRecDepth 10000 in
/-- C7: the declaration of hashEmail awaits inside a non-async function, a
SyntaxError that prevents the queue module from loading at all, so the
event-recording step cannot complete for any recipient list; the digest the
body is written to compute is the 64-character SHA-256 hex of the address,
which is never the raw address itself. -/
theorem hashEmail_declaration_cannot_load :
    jsFunctionParses hashEmailDecl = false ∧
    hashEmail "alice@example.org" ≠ "alice@example.org" ∧
    (hashEmail "alice@example.org").length = 64 := by
  exact ⟨by decide, by decide, by decide⟩

/-- C8: the rate-limit check reports fail exactly when the count query
succeeded with a value at or above the ceiling of 1000, reports pass on any
query error, and its query outcome has no influence on what every other
layer reports. -/
theorem rateLimit_fails_open_and_is_isolated :
    (∀ q : Except Unit Nat, checkRateLimit q = false ↔ ∃ c, q = Except.ok c ∧ 1000 ≤ c) ∧
    checkRateLimit (Except.error ()) = true ∧
    (∀ (cfg : SafetyConfig) (pub : Publication) (now : Int)
        (aq : Except Unit (List ApprovalRequest)) (tq : Except Unit (List Publication))
        (q q' : Except Unit Nat),
        dropLayer11 (checkBeforePublish cfg pub now aq tq q).checks =
          dropLayer11 (checkBeforePublish cfg pub now aq tq q').checks) := by
  refine ⟨?_, by decide, ?_⟩
  · intro q
    cases q with
    | error e => simp [checkRateLimit]
    | ok c => simp [checkRateLimit]
  · intro cfg pub now aq tq q q'
    simp only [checkBeforePublish, dropLayer11_append, dropLayer11_operational]

/-- C9: every exposed operation preserves the invariant that a non-null
rolled_back_at forces can_rollback to be false: scheduling creates a
not-rolled-back row, the delivery job and the rollback route preserve the
invariant on every row, the status route does not write; the rollback UPDATE
sets rolled_back_at and can_rollback false in the one row operation; and no
operation turns can_rollback back to true on any stored row. -/
theorem rolled_back_implies_not_rollbackable_invariant :
    (∀ (db : DB) (d : Nat) (s : Option Nat) (sc : Int) (tm : Bool) (i : Nat) (n : Int),
        (∀ q ∈ db.publications, rollbackInvariant q) →
        ∀ q ∈ ((scheduleRoute db d s sc tm i n).1).publications, rollbackInvariant q) ∧
    (∀ (db : DB) (cfg : SafetyConfig) (pid : Nat) (tm e1 e2 e3 : Bool)
        (tr : Recipient → Option String) (n : Int),
        (∀ q ∈ db.publications, rollbackInvariant q) →
        ∀ q ∈ ((processJob db cfg pid tm e1 e2 e3 tr n).2).publications, rollbackInvariant q) ∧
    (∀ (db : DB) (i : Nat) (r : String) (n : Int),
        (∀ q ∈ db.publications, rollbackInvariant q) →
        ∀ q ∈ ((rollbackRoute db i r n).2).publications, rollbackInvariant q) ∧
    (∀ (db : DB) (i : Nat), (statusRoute db i).2 = db) ∧
    (∀ (p : Publication) (r : String) (n : Int),
        (rollbackUpdate p r n).rolled_back_at = some n ∧
        (rollbackUpdate p r n).can_rollback = false) ∧
    (∀ (db : DB) (i : Nat) (r : String) (n : Int) (q : Publication),
        q ∈ ((rollbackRoute db i r n).2).publications → q.can_rollback = true →
        q ∈ db.publications) ∧
    (∀ (db : DB) (cfg : SafetyConfig) (pid : Nat) (tm e1 e2 e3 : Bool)
        (tr : Recipient → Option String) (n : Int) (q : Publication),
        q ∈ ((processJob db cfg pid tm e1 e2 e3 tr n).2).publications →
        q.can_rollback = true → ∃ p, p ∈ db.publications ∧ p.can_rollback = true) := by
  refine ⟨?_, ?_, ?_, ?_, ?_, ?_, ?_⟩
  · intro db d s sc tm i n h q hq
    have hq' : q ∈ db.publications ++ [(scheduleRoute db d s sc tm i n).2.1] := hq
    rcases List.mem_append.1 hq' with hold | hnew
    · exact h q hold
    · rcases List.mem_singleton.1 hnew with rfl
      intro hrb
      exact absurd rfl hrb
  · intro db cfg pid tm e1 e2 e3 tr n h q hq
    rcases processJob_row_flags db cfg pid tm e1 e2 e3 tr n q hq with ⟨p, hp, hc, hr, _⟩
    intro hrb
    rw [hr] at hrb
    rw [hc]
    exact h p hp hrb
  · intro db i r n h q hq
    unfold rollbackRoute at hq
    cases h1 : findPublication db i with
    | none =>
      rw [h1] at hq
      exact h q hq
    | some p =>
      rw [h1] at hq
      simp only at hq
      by_cases hgt : n > jsDate p.grace_period_ends_at
      · rw [if_pos hgt] at hq
        exact h q hq
      · rw [if_neg hgt] at hq
        have hq' : q ∈ db.publications.map (fun (x : Publication) =>
            if x.id == i then rollbackUpdate x r n else x) := hq
        rcases List.mem_map.1 hq' with ⟨x, hx, hxe⟩
        by_cases hc : x.id == i
        · rw [if_pos hc] at hxe
          rw [← hxe]
          intro _
          rfl
        · rw [if_neg hc] at hxe
          rw [← hxe]
          exact h x hx
  · intro db i
    unfold statusRoute
    cases h1 : findPublication db i with
    | none => rfl
    | some p =>
      simp only
      cases h2 : findDraft db p.guidance_draft_id with
      | none => rfl
      | some d => rfl
  · intro p r n
    exact ⟨rfl, rfl⟩
  · intro db i r n q hq hcan
    unfold rollbackRoute at hq
    cases h1 : findPublication db i with
    | none =>
      rw [h1] at hq
      exact hq
    | some p =>
      rw [h1] at hq
      simp only at hq
      by_cases hgt : n > jsDate p.grace_period_ends_at
      · rw [if_pos hgt] at hq
        exact hq
      · rw [if_neg hgt] at hq
        have hq' : q ∈ db.publications.map (fun (x : Publication) =>
            if x.id == i then rollbackUpdate x r n else x) := hq
        rcases List.mem_map.1 hq' with ⟨x, hx, hxe⟩
        by_cases hc : x.id == i
        · rw [if_pos hc] at hxe
          rw [← hxe] at hcan
          exact absurd hcan (by simp [rollbackUpdate])
        · rw [if_neg hc] at hxe
          rw [← hxe]
          exact hx
  · intro db cfg pid tm e1 e2 e3 tr n q hq hcan
    rcases processJob_row_flags db cfg pid tm e1 e2 e3 tr n q hq with ⟨p, hp, hc, _, _⟩
    exact ⟨p, hp, by rw [← hc]; exact hcan⟩

/-- C9 witness: preservation through the rollback route on the concrete
rolled-back store. -/
theorem rolled_back_implies_not_rollbackable_invariant_witness :
    rollbackInvariant (rollbackUpdate pubRB "second" 2000) :=
  rolled_back_implies_not_rollbackable_invariant.2.2.1 dbRB 1 "second" 2000
    (by decide) (rollbackUpdate pubRB "second" 2000) (by decide)

/-- C10: the approval check returns false on a storage error (it fails
closed, in contrast to the fail-open rate-limit check), it returns true only
when the query succeeded with at least one approval row, and with approval
configured mandatory an erroring lookup makes the aggregate verdict not safe
with the layer-1 failure reported. -/
theorem approval_check_fails_closed :
    checkApproval (Except.error ()) = false ∧
    (∀ q : Except Unit (List ApprovalRequest),
        checkApproval q = true ↔ ∃ rows, q = Except.ok rows ∧ rows ≠ []) ∧
    (∀ (cfg : SafetyConfig) (pub : Publication) (now : Int)
        (tq : Except Unit (List Publication)) (rq : Except Unit Nat),
        cfg.approvalRequired = true →
        (checkBeforePublish cfg pub now (Except.error ()) tq rq).safe = false ∧
        FailedCheck.mk 1 "approval_required" "Publication requires human approval" ∈
          (checkBeforePublish cfg pub now (Except.error ()) tq rq).checks.failed) ∧
    checkRateLimit (Except.error ()) = true := by
  refine ⟨by decide, ?_, ?_, by decide⟩
  · intro q
    cases q with
    | error e => simp [checkApproval]
    | ok rows =>
      simp [checkApproval]
      exact List.length_pos
  · intro cfg pub now tq rq h
    constructor
    · simp [checkBeforePublish, h, checkApproval, appendChecks]
    · simp [checkBeforePublish, h, checkApproval, appendChecks]

/-- C10 witness: the gate outcome with an erroring approval lookup in the
scenario-A configuration. -/
theorem approval_check_fails_closed_witness :
    (checkBeforePublish cfg5 pubA 600000 (Except.error ())
      (healthyTestGroupQ dbA pubA) (healthyRateQ dbA 600000)).safe = false ∧
    FailedCheck.mk 1 "approval_required" "Publication requires human approval" ∈
      (checkBeforePublish cfg5 pubA 600000 (Except.error ())
        (healthyTestGroupQ dbA pubA) (healthyRateQ dbA 600000)).checks.failed :=
  approval_check_fails_closed.2.2.1 cfg5 pubA 600000
    (healthyTestGroupQ dbA pubA) (healthyRateQ dbA 600000) (by decide)
